import Mathlib

/-!
Verification of the RPC utility slice (rpc/util.cpp): the ArgSpec schema
model with its help-text renderer, the destination describer, the key
resolvers, and the multisig redeem-script builder.  C++ exceptions become
Except values; the two assertion sites of the renderer become the two
schema-error kinds named by the specification.
-/

/-- The two renderer-defect conditions: the assert in RPCHelpMan::ToString
(required argument after an optional one) and the assert in
RPCArg::ToStringObj (object nested where only scalar or array shapes are
supported). -/
inductive SchemaErr where
  | UnsupportedSchemaShape
  | SchemaInvariantViolation
deriving DecidableEq, Repr

/-- The RPCArg::Type enumeration from rpc/util.h, as used by rpc/util.cpp. -/
inductive RPCArgType where
  | STR
  | STR_HEX
  | NUM
  | AMOUNT
  | BOOL
  | ARR
  | OBJ
  | OBJ_USER_KEYS
deriving DecidableEq, Repr

mutual
/-- One RPC argument schema node: name, type, optional flag, and the
ordered child specs (used only by composite types). -/
inductive RPCArg where
  | mk (m_name : String) (m_type : RPCArgType) (m_optional : Bool)
       (m_inner : RPCArgList)

/-- The ordered sequence of child or top-level RPCArg nodes
(std::vector of RPCArg). -/
inductive RPCArgList where
  | nil
  | cons (head : RPCArg) (tail : RPCArgList)
end

def RPCArg.m_name : RPCArg → String
  | .mk n _ _ _ => n

def RPCArg.m_type : RPCArg → RPCArgType
  | .mk _ t _ _ => t

def RPCArg.m_optional : RPCArg → Bool
  | .mk _ _ o _ => o

def RPCArg.m_inner : RPCArg → RPCArgList
  | .mk _ _ _ i => i

mutual
/-- RPCArg::ToString from rpc/util.cpp: the per-argument signature token. -/
def argToString : RPCArg → Except SchemaErr String
  | .mk name ty _ inner =>
    match ty with
    | .STR_HEX => .ok ("\"" ++ name ++ "\"")
    | .STR => .ok ("\"" ++ name ++ "\"")
    | .NUM => .ok name
    | .AMOUNT => .ok name
    | .BOOL => .ok name
    | .OBJ =>
      match innerObjJoin inner with
      | .error e => .error e
      | .ok s => .ok ("\x7b" ++ s ++ "\x7d")
    | .OBJ_USER_KEYS =>
      match innerObjJoin inner with
      | .error e => .error e
      | .ok s => .ok ("\x7b" ++ s ++ ",...\x7d")
    | .ARR =>
      match innerToStringConcat inner with
      | .error e => .error e
      | .ok s => .ok ("[" ++ s ++ "...]")

/-- RPCArg::ToStringObj from rpc/util.cpp: the structural rendering used
inside composite parents; the OBJ and OBJ_USER_KEYS arms are the
assert(false) marked as currently unused. -/
def argToStringObj : RPCArg → Except SchemaErr String
  | .mk name ty _ inner =>
    let res := "\"" ++ name ++ "\":"
    match ty with
    | .STR => .ok (res ++ "\"str\"")
    | .STR_HEX => .ok (res ++ "\"hex\"")
    | .NUM => .ok (res ++ "n")
    | .AMOUNT => .ok (res ++ "amount")
    | .BOOL => .ok (res ++ "bool")
    | .ARR =>
      match innerToStringConcat inner with
      | .error e => .error e
      | .ok s => .ok (res ++ "[" ++ s ++ "...]")
    | .OBJ => .error .UnsupportedSchemaShape
    | .OBJ_USER_KEYS => .error .UnsupportedSchemaShape

/-- The loop of the ARR arms: each child rendered by ToString with a
trailing comma appended. -/
def innerToStringConcat : RPCArgList → Except SchemaErr String
  | .nil => .ok ""
  | .cons a rest =>
    match argToString a with
    | .error e => .error e
    | .ok s =>
      match innerToStringConcat rest with
      | .error e => .error e
      | .ok t => .ok (s ++ "," ++ t)

/-- The loop of the OBJ arms of RPCArg::ToString: children rendered by
ToStringObj and joined by commas, with no trailing comma. -/
def innerObjJoin : RPCArgList → Except SchemaErr String
  | .nil => .ok ""
  | .cons a .nil => argToStringObj a
  | .cons a (.cons b rest) =>
    match argToStringObj a with
    | .error e => .error e
    | .ok s =>
      match innerObjJoin (.cons b rest) with
      | .error e => .error e
      | .ok t => .ok (s ++ "," ++ t)
end

/-- The loop body of RPCHelpMan::ToString: accumulated text plus the
is_optional flag, processing the remaining arguments in order.  The
required-after-optional assert becomes SchemaInvariantViolation, checked
before the current argument is rendered, exactly as in the source. -/
def renderSigLoop : RPCArgList → String → Bool → Except SchemaErr String
  | .nil, ret, is_optional =>
    .ok ((if is_optional then ret ++ " )" else ret) ++ "\n")
  | .cons arg rest, ret, is_optional =>
    let ret1 := ret ++ " "
    if arg.m_optional then
      let ret2 := if !is_optional then ret1 ++ "( " else ret1
      match argToString arg with
      | .error e => .error e
      | .ok t => renderSigLoop rest (ret2 ++ t) true
    else
      if is_optional then
        .error .SchemaInvariantViolation
      else
        match argToString arg with
        | .error e => .error e
        | .ok t => renderSigLoop rest (ret1 ++ t) false

/-- The fields of RPCHelpMan read by its ToString method: the command name
and the ordered top-level argument specs. -/
structure RPCHelpMan where
  m_name : String
  m_args : RPCArgList

/-- RPCHelpMan::ToString from rpc/util.cpp: the one-line call signature. -/
def RPCHelpMan.ToString (h : RPCHelpMan) : Except SchemaErr String :=
  renderSigLoop h.m_args h.m_name false

/-- Does the list hold any required (non-optional) argument? -/
def RPCArgList.hasRequired : RPCArgList → Bool
  | .nil => false
  | .cons a rest => !a.m_optional || rest.hasRequired

/-- Does a required argument occur somewhere after an optional one? -/
def RPCArgList.optThenReq : RPCArgList → Bool
  | .nil => false
  | .cons a rest => if a.m_optional then rest.hasRequired else rest.optThenReq

/-- Does RPCArg::ToString succeed on this argument? -/
def renderOk (a : RPCArg) : Bool :=
  match argToString a with
  | .ok _ => true
  | .error _ => false

/-- Does RPCArg::ToString succeed on every argument of the list? -/
def RPCArgList.allRender : RPCArgList → Bool
  | .nil => true
  | .cons a rest => renderOk a && rest.allRender

/-!  The destination variant and its describer. -/

/-- The CTxDestination variant: no destination, a key hash (CKeyID, a
160-bit hash modelled as a natural number), or a script hash (CScriptID). -/
inductive CTxDestination where
  | noDestination
  | keyHash (h : Nat)
  | scriptHash (h : Nat)
deriving DecidableEq, Repr

/-- IsValidDestination: every case except CNoDestination is valid. -/
def IsValidDestination : CTxDestination → Bool
  | .noDestination => false
  | .keyHash _ => true
  | .scriptHash _ => true

/-- The slice of UniValue that DescribeAddress builds: booleans and
key-ordered objects. -/
inductive UniValue where
  | VBOOL (b : Bool)
  | VOBJ (entries : List (String × UniValue))

/-- DescribeAddress from rpc/util.cpp: boost::apply_visitor of
DescribeAddressVisitor, one arm per destination case. -/
def DescribeAddress : CTxDestination → UniValue
  | .noDestination => .VOBJ []
  | .keyHash _ => .VOBJ [("isscript", .VBOOL false)]
  | .scriptHash _ => .VOBJ [("isscript", .VBOOL true)]

/-!  Errors thrown through JSONRPCError. -/

/-- The rpc/protocol.h error codes used by rpc/util.cpp. -/
inductive RPCErrorCode where
  | RPC_INVALID_ADDRESS_OR_KEY
  | RPC_INVALID_PARAMETER
  | RPC_INTERNAL_ERROR
deriving DecidableEq, Repr

/-- A JSONRPCError value: code plus formatted message. -/
structure JSONRPCError where
  code : RPCErrorCode
  message : String
deriving DecidableEq, Repr

/-!  Public keys and the hex resolver. -/

/-- CPubKey: the raw byte vector of a compressed or uncompressed public
key. -/
structure CPubKey where
  vch : List Nat
deriving DecidableEq, Repr

/-- Modelled from the spec: a PublicKey is fully valid when it has the
correct length and encoding prefix (compressed: 33 bytes, prefix 2 or 3;
uncompressed/hybrid: 65 bytes, prefix 4, 6 or 7) and lies on the curve.
CPubKey::IsFullyValid lives in pubkey.cpp, outside this slice; the
on-curve test is external cryptography, so validity is modelled by its
structural part, which the claims depend on. -/
def CPubKey.IsFullyValid (k : CPubKey) : Bool :=
  (k.vch.length == 33 && (k.vch.headD 0 == 2 || k.vch.headD 0 == 3)) ||
  (k.vch.length == 65 &&
    (k.vch.headD 0 == 4 || k.vch.headD 0 == 6 || k.vch.headD 0 == 7))

/-- One hexadecimal digit. -/
def isHexDigit (c : Char) : Bool :=
  (decide ('0' ≤ c) && decide (c ≤ '9')) ||
  (decide ('a' ≤ c) && decide (c ≤ 'f')) ||
  (decide ('A' ≤ c) && decide (c ≤ 'F'))

/-- Modelled from the spec: IsHex (util/strencodings.h, outside this
slice) accepts exactly the well-formed hexadecimal strings: nonempty, of
even length, every character a hex digit. -/
def IsHex (s : String) : Bool :=
  decide (s.length > 0) && (s.length % 2 == 0) && s.data.all isHexDigit

/-- Numeric value of a hex digit. -/
def hexDigitVal (c : Char) : Nat :=
  if '0' ≤ c ∧ c ≤ '9' then c.toNat - '0'.toNat
  else if 'a' ≤ c ∧ c ≤ 'f' then c.toNat - 'a'.toNat + 10
  else if 'A' ≤ c ∧ c ≤ 'F' then c.toNat - 'A'.toNat + 10
  else 0

/-- Decode consecutive pairs of hex digits into bytes. -/
def parseHexChars : List Char → List Nat
  | c1 :: c2 :: rest => (16 * hexDigitVal c1 + hexDigitVal c2) :: parseHexChars rest
  | _ => []

/-- Modelled from the spec: ParseHex (util/strencodings, outside this
slice) decodes a hex string to its byte sequence. -/
def ParseHex (s : String) : List Nat :=
  parseHexChars s.data

/-- HexToPubKey from rpc/util.cpp: hex check, decode, full-validity
check; both failures throw RPC_INVALID_ADDRESS_OR_KEY with the message
built from the same template. -/
def HexToPubKey (hex_in : String) : Except JSONRPCError CPubKey :=
  if !IsHex hex_in then
    .error ⟨.RPC_INVALID_ADDRESS_OR_KEY, "Invalid public key: " ++ hex_in⟩
  else
    let vchPubKey : CPubKey := ⟨ParseHex hex_in⟩
    if !vchPubKey.IsFullyValid then
      .error ⟨.RPC_INVALID_ADDRESS_OR_KEY, "Invalid public key: " ++ hex_in⟩
    else
      .ok vchPubKey

/-!  The address resolver and its keystore collaborators. -/

/-- CKeyID: a 160-bit key hash; the all-zero value is the null id. -/
structure CKeyID where
  hash : Nat
deriving DecidableEq, Repr

/-- CKeyID::IsNull. -/
def CKeyID.IsNull (k : CKeyID) : Bool :=
  k.hash == 0

/-- Modelled from the spec: the keystore destination-to-key-id lookup
(GetKeyForDestination, outside this slice) yields the key id of a
key-hash destination and the null id for any other destination. -/
def GetKeyForDestination : CTxDestination → CKeyID
  | .keyHash h => ⟨h⟩
  | _ => ⟨0⟩

/-- Modelled from the spec: the KeyStore capability consumed by
AddrToPubKey; GetPubKey yields the full public key for a key id when the
store holds one. -/
structure CKeyStore where
  getPubKey : CKeyID → Option CPubKey

/-- AddrToPubKey from rpc/util.cpp.  DecodeDestination is external and
parameterized by the chain parameters, so the pair (decode operation,
network context) is modelled as one function from address text to
destination.  The four checks run in source order; the first three throw
RPC_INVALID_ADDRESS_OR_KEY, the last throws RPC_INTERNAL_ERROR. -/
def AddrToPubKey (decodeDest : String → CTxDestination)
    (keystore : CKeyStore) (addr_in : String) :
    Except JSONRPCError CPubKey :=
  let dest := decodeDest addr_in
  if !IsValidDestination dest then
    .error ⟨.RPC_INVALID_ADDRESS_OR_KEY, "Invalid address: " ++ addr_in⟩
  else
    let key := GetKeyForDestination dest
    if key.IsNull then
      .error ⟨.RPC_INVALID_ADDRESS_OR_KEY, addr_in ++ " does not refer to a key"⟩
    else
      match keystore.getPubKey key with
      | none =>
        .error ⟨.RPC_INVALID_ADDRESS_OR_KEY,
                "no full public key for address " ++ addr_in⟩
      | some vchPubKey =>
        if !vchPubKey.IsFullyValid then
          .error ⟨.RPC_INTERNAL_ERROR, "Wallet contains an invalid public key"⟩
        else
          .ok vchPubKey

/-!  The multisig redeem-script builder. -/

/-- Modelled from the spec: the external Limits constant
MAX_SCRIPT_ELEMENT_SIZE of the surrounding scripting system
(script/script.h). -/
def MAX_SCRIPT_ELEMENT_SIZE : Nat := 520

/-- The OP_CHECKMULTISIG opcode byte. -/
def OP_CHECKMULTISIG : Nat := 0xae

/-- A small count 1..16 encoded as the one-byte opcode OP_1..OP_16
(0x51..0x60); 0 encodes as OP_0. -/
def encodeSmallNum (n : Nat) : Nat :=
  if n == 0 then 0 else 0x50 + n

/-- A data push of one key: length byte then the raw bytes (keys are at
most 65 bytes, well under the 76-byte direct-push limit). -/
def pushKeyBytes (k : CPubKey) : List Nat :=
  k.vch.length :: k.vch

/-- Modelled from the spec: GetScriptForMultisig (script/standard.cpp,
outside this slice) builds the standard template: push required, push
each key in the order given, push the key count, then OP_CHECKMULTISIG. -/
def GetScriptForMultisig (required : Int) (keys : List CPubKey) : List Nat :=
  encodeSmallNum required.toNat ::
    (keys.flatMap pushKeyBytes ++ [encodeSmallNum keys.length, OP_CHECKMULTISIG])

/-- The threshold error thrown when required < 1. -/
def invalidThresholdErr : JSONRPCError :=
  ⟨.RPC_INVALID_PARAMETER,
   "a multisignature address must require at least one key to redeem"⟩

/-- The error thrown when fewer keys than required are supplied. -/
def insufficientKeysErr (got : Nat) (need : Int) : JSONRPCError :=
  ⟨.RPC_INVALID_PARAMETER,
   "not enough keys supplied (got " ++ toString got ++
     " keys, but need at least " ++ toString need ++ " to redeem)"⟩

/-- The error thrown when more than 16 keys are supplied. -/
def tooManyKeysErr : JSONRPCError :=
  ⟨.RPC_INVALID_PARAMETER,
   "Number of keys involved in the multisignature address creation > 16\nReduce the number"⟩

/-- The error thrown when the built script exceeds the element size
limit. -/
def scriptTooLargeErr (actual : Nat) : JSONRPCError :=
  ⟨.RPC_INVALID_PARAMETER,
   "redeemScript exceeds size limit: " ++ toString actual ++ " > " ++
     toString MAX_SCRIPT_ELEMENT_SIZE⟩

/-- CreateMultisigRedeemscript from rpc/util.cpp: the three parameter
checks in source order, the script build, then the size check. -/
def CreateMultisigRedeemscript (required : Int) (pubkeys : List CPubKey) :
    Except JSONRPCError (List Nat) :=
  if required < 1 then
    .error invalidThresholdErr
  else if (pubkeys.length : Int) < required then
    .error (insufficientKeysErr pubkeys.length required)
  else if pubkeys.length > 16 then
    .error tooManyKeysErr
  else
    let result := GetScriptForMultisig required pubkeys
    if result.length > MAX_SCRIPT_ELEMENT_SIZE then
      .error (scriptTooLargeErr result.length)
    else
      .ok result

/-- Sixteen uncompressed-size keys: enough bytes to push the built
multisig script past the element size limit. -/
def bigKeys : List CPubKey := List.replicate 16 ⟨List.replicate 65 4⟩

/-!  Helper lemmas. -/

/-- renderOk holds exactly when ToString yields some token. -/
theorem renderOk_iff (a : RPCArg) :
    renderOk a = true ↔ ∃ s, argToString a = .ok s := by
  unfold renderOk
  cases h : argToString a <;> simp

/-- If every remaining argument renders and one of them is required, the
signature loop entered in the optional state ends in the
required-after-optional violation. -/
theorem renderSigLoop_hasRequired_error :
    ∀ (l : RPCArgList) (ret : String),
      l.allRender = true → l.hasRequired = true →
      renderSigLoop l ret true = .error .SchemaInvariantViolation
  | .nil, ret, _, hreq => by
    simp [RPCArgList.hasRequired] at hreq
  | .cons a rest, ret, hall, hreq => by
    simp only [RPCArgList.allRender, Bool.and_eq_true] at hall
    by_cases hopt : a.m_optional = true
    · obtain ⟨s, hs⟩ := (renderOk_iff a).mp hall.1
      have hreq2 : rest.hasRequired = true := by
        simpa [RPCArgList.hasRequired, hopt] using hreq
      simp only [renderSigLoop, hopt, if_true, hs]
      exact renderSigLoop_hasRequired_error rest _ hall.2 hreq2
    · simp only [renderSigLoop, hopt]
      simp

/-- If every argument renders and a required argument follows an optional
one, the signature loop entered in the initial state ends in the
required-after-optional violation. -/
theorem renderSigLoop_optThenReq_error :
    ∀ (l : RPCArgList) (ret : String),
      l.allRender = true → l.optThenReq = true →
      renderSigLoop l ret false = .error .SchemaInvariantViolation
  | .nil, ret, _, hseq => by
    simp [RPCArgList.optThenReq] at hseq
  | .cons a rest, ret, hall, hseq => by
    simp only [RPCArgList.allRender, Bool.and_eq_true] at hall
    obtain ⟨s, hs⟩ := (renderOk_iff a).mp hall.1
    by_cases hopt : a.m_optional = true
    · have hreq : rest.hasRequired = true := by
        simpa [RPCArgList.optThenReq, hopt] using hseq
      simp only [renderSigLoop, hopt, if_true, hs]
      exact renderSigLoop_hasRequired_error rest _ hall.2 hreq
    · have hseq2 : rest.optThenReq = true := by
        simpa [RPCArgList.optThenReq, hopt] using hseq
      simp only [renderSigLoop, hopt, hs]
      simp only [Bool.false_eq_true, if_false]
      exact renderSigLoop_optThenReq_error rest _ hall.2 hseq2

/-!  The claims. -/

/-- C1: for command name foo and arguments required_a (required),
optional_b and optional_c (optional), RPCHelpMan::ToString returns
exactly the line with the opening marker before the first optional
token, the closing marker after the last one, and one line break. -/
theorem renderSignature_example_foo :
    RPCHelpMan.ToString
      ⟨"foo",
        .cons (.mk "required_a" .NUM false .nil)
          (.cons (.mk "optional_b" .NUM true .nil)
            (.cons (.mk "optional_c" .NUM true .nil) .nil))⟩ =
      .ok "foo required_a ( optional_b optional_c )\n" := by rfl

/-- C10: for any command name and the empty argument list, the signature
is exactly the name followed by one line break, with no spaces and no
optional-group markers. -/
theorem renderSignature_empty_args (name : String) :
    RPCHelpMan.ToString ⟨name, .nil⟩ = .ok (name ++ "\n") := by rfl

/-- C6 counterexample: an argument list whose required argument follows
an optional one, yet rendering fails with UnsupportedSchemaShape (the
optional argument is an object with a nested object child, whose
rendering defect fires first), not with SchemaInvariantViolation. -/
theorem renderSignature_optThenReq_counterexample :
    RPCArgList.optThenReq
        (.cons (.mk "a" .OBJ true (.cons (.mk "b" .OBJ false .nil) .nil))
          (.cons (.mk "c" .NUM false .nil) .nil)) = true ∧
    RPCHelpMan.ToString
        ⟨"qux",
          .cons (.mk "a" .OBJ true (.cons (.mk "b" .OBJ false .nil) .nil))
            (.cons (.mk "c" .NUM false .nil) .nil)⟩ =
      .error .UnsupportedSchemaShape ∧
    (Except.error SchemaErr.UnsupportedSchemaShape :
        Except SchemaErr String) ≠
      .error .SchemaInvariantViolation :=
  ⟨rfl, rfl, by simp⟩

/-- C6 amended: for every argument list whose arguments each render
successfully, if a required argument follows an optional one the
renderer fails with SchemaInvariantViolation and produces no text. -/
theorem renderSignature_required_after_optional (name : String)
    (args : RPCArgList) (hall : args.allRender = true)
    (hseq : args.optThenReq = true) :
    RPCHelpMan.ToString ⟨name, args⟩ = .error .SchemaInvariantViolation :=
  renderSigLoop_optThenReq_error args name hall hseq

/-- C6 witness: the spec's own example, optional_a then required_b. -/
theorem renderSignature_required_after_optional_witness :
    RPCArgList.allRender
        (.cons (.mk "optional_a" .NUM true .nil)
          (.cons (.mk "required_b" .NUM false .nil) .nil)) = true ∧
    RPCArgList.optThenReq
        (.cons (.mk "optional_a" .NUM true .nil)
          (.cons (.mk "required_b" .NUM false .nil) .nil)) = true ∧
    RPCHelpMan.ToString
        ⟨"bar",
          .cons (.mk "optional_a" .NUM true .nil)
            (.cons (.mk "required_b" .NUM false .nil) .nil)⟩ =
      .error .SchemaInvariantViolation :=
  ⟨rfl, rfl,
   renderSignature_required_after_optional "bar"
     (.cons (.mk "optional_a" .NUM true .nil)
       (.cons (.mk "required_b" .NUM false .nil) .nil)) rfl rfl⟩

/-- C7 counterexample: the structural rendering of a string-typed
argument named x has no space after the colon, so it differs from the
format with a space that the claim states. -/
theorem renderStructure_colon_counterexample :
    argToStringObj (.mk "x" .STR false .nil) = .ok "\"x\":\"str\"" ∧
    ("\"x\":\"str\"" : String) ≠ "\"x\": \"str\"" :=
  ⟨rfl, by decide⟩

/-- C7 amended: for every non-composite argument the structural
rendering is the quoted name, a colon with no space after it, then the
type tag: str and hex quoted, n, amount and bool bare. -/
theorem renderStructure_scalar_formats (name : String) (o : Bool)
    (inner : RPCArgList) :
    argToStringObj (.mk name .STR o inner) =
      .ok ("\"" ++ name ++ "\":" ++ "\"str\"") ∧
    argToStringObj (.mk name .STR_HEX o inner) =
      .ok ("\"" ++ name ++ "\":" ++ "\"hex\"") ∧
    argToStringObj (.mk name .NUM o inner) =
      .ok ("\"" ++ name ++ "\":" ++ "n") ∧
    argToStringObj (.mk name .AMOUNT o inner) =
      .ok ("\"" ++ name ++ "\":" ++ "amount") ∧
    argToStringObj (.mk name .BOOL o inner) =
      .ok ("\"" ++ name ++ "\":" ++ "bool") :=
  ⟨rfl, rfl, rfl, rfl, rfl⟩

/-- C8: for every object-typed or free-form-object-typed argument the
structural renderer fails with UnsupportedSchemaShape and produces no
output. -/
theorem renderStructure_object_unsupported (name : String) (o : Bool)
    (inner : RPCArgList) :
    argToStringObj (.mk name .OBJ o inner) =
      .error .UnsupportedSchemaShape ∧
    argToStringObj (.mk name .OBJ_USER_KEYS o inner) =
      .error .UnsupportedSchemaShape :=
  ⟨rfl, rfl⟩

/-- C2 counterexample: seventeen keys with required = 0 fail with the
threshold error, not with the too-many-keys error, because the
required-at-least-one check runs first. -/
theorem createMultisig_zeroRequired_counterexample :
    16 < (List.replicate 17 (⟨[0]⟩ : CPubKey)).length ∧
    CreateMultisigRedeemscript 0 (List.replicate 17 ⟨[0]⟩) =
      .error invalidThresholdErr ∧
    invalidThresholdErr ≠ tooManyKeysErr :=
  ⟨by decide, rfl, by decide⟩

/-- C2 amended: with more than sixteen keys the builder fails with the
too-many-keys error provided the two earlier checks pass, that is when
1 ≤ required ≤ keys.length; when required < 1 the threshold error wins
and when required > keys.length the insufficient-keys error wins. -/
theorem createMultisig_tooManyKeys (required : Int) (keys : List CPubKey)
    (h1 : 1 ≤ required) (h2 : required ≤ (keys.length : Int))
    (h3 : 16 < keys.length) :
    CreateMultisigRedeemscript required keys = .error tooManyKeysErr := by
  unfold CreateMultisigRedeemscript
  rw [if_neg (by omega), if_neg (by omega), if_pos (by omega)]

/-- C2 witness: one-of-seventeen fails with the too-many-keys error. -/
theorem createMultisig_tooManyKeys_witness :
    1 ≤ (1 : Int) ∧
    (1 : Int) ≤ ((List.replicate 17 (⟨[0]⟩ : CPubKey)).length : Int) ∧
    16 < (List.replicate 17 (⟨[0]⟩ : CPubKey)).length ∧
    CreateMultisigRedeemscript 1 (List.replicate 17 ⟨[0]⟩) =
      .error tooManyKeysErr :=
  ⟨by decide, by decide, by decide,
   createMultisig_tooManyKeys 1 (List.replicate 17 ⟨[0]⟩)
     (by decide) (by decide) (by decide)⟩

/-- C3: every script the builder returns is within
MAX_SCRIPT_ELEMENT_SIZE, and whenever the built script would exceed the
limit (with the three parameter checks passing) the builder fails with
the size error reporting the actual size and the limit, returning no
script. -/
theorem createMultisig_size_limit :
    (∀ (required : Int) (keys : List CPubKey) (s : List Nat),
      CreateMultisigRedeemscript required keys = .ok s →
      s.length ≤ MAX_SCRIPT_ELEMENT_SIZE) ∧
    (∀ (required : Int) (keys : List CPubKey),
      1 ≤ required → required ≤ (keys.length : Int) → keys.length ≤ 16 →
      MAX_SCRIPT_ELEMENT_SIZE < (GetScriptForMultisig required keys).length →
      CreateMultisigRedeemscript required keys =
        .error (scriptTooLargeErr (GetScriptForMultisig required keys).length)) := by
  constructor
  · intro required keys s h
    simp only [CreateMultisigRedeemscript] at h
    split at h
    · simp at h
    · split at h
      · simp at h
      · split at h
        · simp at h
        · split at h
          · simp at h
          · rename_i hsize
            obtain rfl : GetScriptForMultisig required keys = s := by
              simpa using h
            omega
  · intro required keys h1 h2 h3 h4
    simp only [CreateMultisigRedeemscript]
    rw [if_neg (by omega), if_neg (by omega), if_neg (by omega),
        if_pos (by omega)]

set_option maxRecDepth 100000 in
/-- C3 witness: a 1-of-1 script of five bytes is accepted and within the
limit; sixteen 65-byte keys build a 1059-byte script and are rejected
with the size error. -/
theorem createMultisig_size_limit_witness :
    (CreateMultisigRedeemscript 1 [⟨[2]⟩] = .ok [81, 1, 2, 81, 174] ∧
      ([81, 1, 2, 81, 174] : List Nat).length ≤ MAX_SCRIPT_ELEMENT_SIZE) ∧
    ((GetScriptForMultisig 2 bigKeys).length = 1059 ∧
      CreateMultisigRedeemscript 2 bigKeys =
        .error (scriptTooLargeErr (GetScriptForMultisig 2 bigKeys).length)) :=
  ⟨⟨rfl, createMultisig_size_limit.1 1 [⟨[2]⟩] [81, 1, 2, 81, 174] rfl⟩,
   ⟨by rfl,
    createMultisig_size_limit.2 2 bigKeys (by decide) (by decide) (by decide)
      (by decide)⟩⟩

/-- C5 counterexample: a non-hexadecimal input and a hexadecimal input
with invalid key bytes fail with errors of the same kind: the same code
RPC_INVALID_ADDRESS_OR_KEY and the same message template, so the two
failure modes are not distinguishable. -/
theorem hexToPubKey_failures_identical :
    IsHex "zz" = false ∧
    HexToPubKey "zz" =
      .error ⟨.RPC_INVALID_ADDRESS_OR_KEY, "Invalid public key: zz"⟩ ∧
    IsHex "00" = true ∧
    CPubKey.IsFullyValid ⟨ParseHex "00"⟩ = false ∧
    HexToPubKey "00" =
      .error ⟨.RPC_INVALID_ADDRESS_OR_KEY, "Invalid public key: 00"⟩ :=
  ⟨rfl, rfl, rfl, rfl, rfl⟩

/-- C5 amended: non-hexadecimal input fails, and hexadecimal input whose
bytes are not a fully valid key fails, both with the one error the code
builds: code RPC_INVALID_ADDRESS_OR_KEY and message Invalid public key
followed by the input; the code gives the two failure modes no
distinguishable kinds. -/
theorem hexToPubKey_error_uniform (s : String) :
    (IsHex s = false →
      HexToPubKey s =
        .error ⟨.RPC_INVALID_ADDRESS_OR_KEY, "Invalid public key: " ++ s⟩) ∧
    (IsHex s = true → CPubKey.IsFullyValid ⟨ParseHex s⟩ = false →
      HexToPubKey s =
        .error ⟨.RPC_INVALID_ADDRESS_OR_KEY, "Invalid public key: " ++ s⟩) := by
  constructor
  · intro h
    simp [HexToPubKey, h]
  · intro h1 h2
    simp [HexToPubKey, h1, h2]

/-- C5 witness: both branches of the amended statement at concrete
inputs. -/
theorem hexToPubKey_error_uniform_witness :
    IsHex "zz" = false ∧
    HexToPubKey "zz" =
      .error ⟨.RPC_INVALID_ADDRESS_OR_KEY, "Invalid public key: " ++ "zz"⟩ ∧
    IsHex "00" = true ∧
    CPubKey.IsFullyValid ⟨ParseHex "00"⟩ = false ∧
    HexToPubKey "00" =
      .error ⟨.RPC_INVALID_ADDRESS_OR_KEY, "Invalid public key: " ++ "00"⟩ :=
  ⟨rfl, (hexToPubKey_error_uniform "zz").1 rfl, rfl, rfl,
   (hexToPubKey_error_uniform "00").2 rfl rfl⟩

/-- C4: AddrToPubKey checks decode, key-id lookup, full-key fetch, then
key validity, in that order; the first three failures carry the
client-input code RPC_INVALID_ADDRESS_OR_KEY while a fetched key that
fails validity carries RPC_INTERNAL_ERROR, a distinct category. -/
theorem addrToPubKey_check_order (decodeDest : String → CTxDestination)
    (keystore : CKeyStore) (addr : String) :
    (IsValidDestination (decodeDest addr) = false →
      AddrToPubKey decodeDest keystore addr =
        .error ⟨.RPC_INVALID_ADDRESS_OR_KEY, "Invalid address: " ++ addr⟩) ∧
    (IsValidDestination (decodeDest addr) = true →
      (GetKeyForDestination (decodeDest addr)).IsNull = true →
      AddrToPubKey decodeDest keystore addr =
        .error ⟨.RPC_INVALID_ADDRESS_OR_KEY,
                addr ++ " does not refer to a key"⟩) ∧
    (IsValidDestination (decodeDest addr) = true →
      (GetKeyForDestination (decodeDest addr)).IsNull = false →
      keystore.getPubKey (GetKeyForDestination (decodeDest addr)) = none →
      AddrToPubKey decodeDest keystore addr =
        .error ⟨.RPC_INVALID_ADDRESS_OR_KEY,
                "no full public key for address " ++ addr⟩) ∧
    (∀ pk : CPubKey,
      IsValidDestination (decodeDest addr) = true →
      (GetKeyForDestination (decodeDest addr)).IsNull = false →
      keystore.getPubKey (GetKeyForDestination (decodeDest addr)) = some pk →
      pk.IsFullyValid = false →
      AddrToPubKey decodeDest keystore addr =
        .error ⟨.RPC_INTERNAL_ERROR,
                "Wallet contains an invalid public key"⟩) ∧
    RPCErrorCode.RPC_INTERNAL_ERROR ≠
      RPCErrorCode.RPC_INVALID_ADDRESS_OR_KEY := by
  refine ⟨?_, ?_, ?_, ?_, by decide⟩
  · intro h
    simp [AddrToPubKey, h]
  · intro h1 h2
    simp [AddrToPubKey, h1, h2]
  · intro h1 h2 h3
    simp [AddrToPubKey, h1, h2, h3]
  · intro pk h1 h2 h3 h4
    simp [AddrToPubKey, h1, h2, h3, h4]

/-- C4 witness: a keystore that returns a structurally invalid stored
key for a decodable key-hash address yields the internal-server
error. -/
theorem addrToPubKey_check_order_witness :
    IsValidDestination ((fun _ => CTxDestination.keyHash 1) "addr") = true ∧
    (GetKeyForDestination
        ((fun _ => CTxDestination.keyHash 1) "addr")).IsNull = false ∧
    CKeyStore.getPubKey ⟨fun _ => some ⟨[9]⟩⟩
        (GetKeyForDestination ((fun _ => CTxDestination.keyHash 1) "addr")) =
      some ⟨[9]⟩ ∧
    CPubKey.IsFullyValid ⟨[9]⟩ = false ∧
    AddrToPubKey (fun _ => CTxDestination.keyHash 1) ⟨fun _ => some ⟨[9]⟩⟩
        "addr" =
      .error ⟨.RPC_INTERNAL_ERROR, "Wallet contains an invalid public key"⟩ :=
  ⟨rfl, rfl, rfl, rfl,
   (addrToPubKey_check_order (fun _ => CTxDestination.keyHash 1)
       ⟨fun _ => some ⟨[9]⟩⟩ "addr").2.2.2.1 ⟨[9]⟩ rfl rfl rfl rfl⟩

/-- C9: DescribeAddress is total over the three destination cases: the
none case yields the empty object, the key-hash case the single field
isscript = false, the script-hash case the single field
isscript = true. -/
theorem describeAddress_total :
    DescribeAddress .noDestination = .VOBJ [] ∧
    (∀ h : Nat, DescribeAddress (.keyHash h) =
      .VOBJ [("isscript", .VBOOL false)]) ∧
    (∀ h : Nat, DescribeAddress (.scriptHash h) =
      .VOBJ [("isscript", .VBOOL true)]) :=
  ⟨rfl, fun _ => rfl, fun _ => rfl⟩


